import Mathlib

/-!
Verification of the retrieval-and-orchestration engine of the RAG chatbot
codebase.  The repository ships the test suite of the engine
(`backend/tests/`) but the engine modules themselves (`vector_store.py`,
`search_tools.py`, `ai_generator.py`, `rag_system.py`, `models.py`) are not
part of the sources available here, so every engine operation below is
modelled from the specification document, faithful to its words, with the
external embedding engine and language-model service abstracted as explicit
parameters (a distance oracle, and a script of model responses).
-/

namespace RagSpec

/-- Straight quote character, used inside generated messages. -/
def squote : String := String.singleton (Char.ofNat 39)

/-! ## Data model (spec section 3) -/

/-- Modelled from the spec: a Lesson has a lesson number (non-negative
integer), a title and an optional lesson link (`models.py` is not in the
available sources). -/
structure Lesson where
  lesson_number : Nat
  title : String
  lesson_link : Option String
deriving Repr, DecidableEq

/-- Modelled from the spec: a Course has a unique title, optional course
link, optional instructor and an ordered sequence of Lessons. -/
structure Course where
  title : String
  course_link : Option String
  instructor : Option String
  lessons : List Lesson
deriving Repr, DecidableEq

/-- Modelled from the spec: a Chunk carries its content text, the owning
course title, the lesson number it came from, a zero-based index unique
within the course, and an optional lesson link copied from the Lesson. -/
structure CourseChunk where
  content : String
  course_title : String
  lesson_number : Nat
  chunk_index : Nat
  lesson_link : Option String
deriving Repr, DecidableEq

/-- One metadata map attached to a retrieved document: course title, lesson
number, lesson link. -/
structure ChunkMeta where
  course_title : String
  lesson_number : Nat
  lesson_link : Option String
deriving Repr, DecidableEq

/-- Modelled from the spec: `SearchResults` holds parallel ordered sequences
of documents, metadata and distances, plus an optional error string
(`vector_store.py` is not in the available sources). -/
structure SearchResults where
  documents : List String
  metadata : List ChunkMeta
  distances : List ℚ
  error : Option String := none
deriving Repr, DecidableEq

/-- Modelled from the spec: the shape of a raw result coming back from the
external embedding store (one inner row per query, parallel arrays). -/
structure ChromaResults where
  documents : List (List String)
  metadatas : List (List ChunkMeta)
  distances : List (List ℚ)
deriving Repr

/-- Modelled from the spec: build a `SearchResults` from the first row of a
raw embedding-store result, with no error. -/
def SearchResults.from_chroma (cr : ChromaResults) : SearchResults :=
  { documents := cr.documents.headD []
    metadata := cr.metadatas.headD []
    distances := cr.distances.headD []
    error := none }

/-- Modelled from the spec: an empty `SearchResults` carrying an error
message; all three sequences are empty. -/
def SearchResults.empty (msg : String) : SearchResults :=
  { documents := [], metadata := [], distances := [], error := some msg }

/-- Modelled from the spec: a result set is empty when it holds no
documents. -/
def SearchResults.is_empty (r : SearchResults) : Bool :=
  r.documents.isEmpty

/-! ## Retrieval Store (spec section 4.2)

The external embedding-capable store is abstracted as a distance oracle
`Embedder.dist` (lower = closer) together with the matching threshold used
by the fuzzy course-name resolution. -/

/-- The external embedding engine: a semantic distance between two texts
(lower = closer) and the matching threshold for course-name resolution. -/
structure Embedder where
  dist : String → String → ℚ
  threshold : ℚ

/-- Modelled from the spec: the Retrieval Store owns a metadata collection
(one entry per course) and a content collection of chunks, plus the
configured default `max_results`. -/
structure VectorStore where
  course_catalog : List Course
  course_content : List CourseChunk
  max_results : Nat
deriving Repr

/-- Top-1 nearest match of `name` among `titles` under the embedding
distance: the title with least distance, together with that distance. -/
def bestMatch (e : Embedder) (name : String) : List String → Option (String × ℚ)
  | [] => none
  | t :: ts =>
    match bestMatch e name ts with
    | none => some (t, e.dist name t)
    | some (u, d) =>
      if e.dist name t ≤ d then some (t, e.dist name t) else some (u, d)

/-- Modelled from the spec: resolve a fuzzy course name to an exact stored
title via a semantic top-1 nearest-match lookup against the metadata
collection; fails (returns `none`) when no metadata exists or the best
match is below the matching threshold (distance above it). -/
def VectorStore.resolve_course_name (vs : VectorStore) (e : Embedder)
    (name : String) : Option String :=
  match bestMatch e name (vs.course_catalog.map (·.title)) with
  | none => none
  | some (t, d) => if d ≤ e.threshold then some t else none

/-- Modelled from the spec: the combined content filter, course-title-equals
(if resolved) AND lesson-number-equals (if given). -/
def matchesFilter (courseTitle : Option String) (lessonNumber : Option Nat)
    (c : CourseChunk) : Bool :=
  (match courseTitle with
   | none => true
   | some t => c.course_title == t)
  && (match lessonNumber with
      | none => true
      | some n => c.lesson_number == n)

/-- The metadata map attached to a stored chunk. -/
def chunkMeta (c : CourseChunk) : ChunkMeta :=
  { course_title := c.course_title
    lesson_number := c.lesson_number
    lesson_link := c.lesson_link }

/-- Modelled from the spec: the semantic nearest-neighbor query against the
content collection with the combined filter applied, bounded to `limit`
(default the store-configured `max_results`), returning ranked parallel
sequences and no error. -/
def VectorStore.query_content (vs : VectorStore) (e : Embedder) (query : String)
    (courseTitle : Option String) (lessonNumber : Option Nat)
    (limit : Option Nat) : SearchResults :=
  let filtered := vs.course_content.filter (matchesFilter courseTitle lessonNumber)
  let scored := filtered.map (fun c => (c, e.dist query c.content))
  let ranked := scored.insertionSort (fun a b => a.2 ≤ b.2)
  let top := ranked.take (limit.getD vs.max_results)
  { documents := top.map (fun p => p.1.content)
    metadata := top.map (fun p => chunkMeta p.1)
    distances := top.map (fun p => p.2)
    error := none }

/-- Modelled from the spec: `search` resolves the optional course name first
(returning an error result, without touching the content collection, when
resolution fails), builds the combined filter and runs the bounded
nearest-neighbor content query. -/
def VectorStore.search (vs : VectorStore) (e : Embedder) (query : String)
    (course_name : Option String := none) (lesson_number : Option Nat := none)
    (limit : Option Nat := none) : SearchResults :=
  match course_name with
  | some name =>
    match vs.resolve_course_name e name with
    | none => SearchResults.empty ("No course found matching " ++ name)
    | some t => vs.query_content e query (some t) lesson_number limit
  | none => vs.query_content e query none lesson_number limit

/-! ## Search Tool (spec section 4.3) -/

/-- A display pair shown to the end user: text label and optional link. -/
structure Source where
  text : String
  link : Option String
deriving Repr, DecidableEq

/-- The label of one retrieved result: `{courseTitle} - Lesson {n}`. -/
def sourceLabel (m : ChunkMeta) : String :=
  m.course_title ++ " - Lesson " ++ toString m.lesson_number

/-- Modelled from the spec: the Sources of one execution, one per result,
label `{courseTitle} - Lesson {n}`, link that results lesson link or
absent. -/
def sourcesOf (r : SearchResults) : List Source :=
  r.metadata.map (fun m => { text := sourceLabel m, link := m.lesson_link })

/-- Modelled from the spec: each result is formatted as a bracketed header
`[{courseTitle} - Lesson {n}]` followed by the document text, joined with
blank-line separators in result order. -/
def formatResults (r : SearchResults) : String :=
  String.intercalate "\n\n"
    ((r.documents.zip r.metadata).map
      (fun p => "[" ++ sourceLabel p.2 ++ "]\n" ++ p.1))

/-- Modelled from the spec: the no-result message, augmented with whichever
filters were supplied. -/
def noContentMsg (course_name : Option String) (lesson_number : Option Nat) :
    String :=
  "No relevant content found"
    ++ (match course_name with
        | none => ""
        | some c => " in course " ++ squote ++ c ++ squote)
    ++ (match lesson_number with
        | none => ""
        | some n => " in lesson " ++ toString n)

/-- Modelled from the spec: the text the Search Tool hands to the model for
one result set: the error string verbatim when an error is set, the
augmented no-content message when the result set is empty, otherwise the
formatted results. -/
def toolOutput (r : SearchResults) (course_name : Option String)
    (lesson_number : Option Nat) : String :=
  match r.error with
  | some msg => msg
  | none =>
    if r.is_empty then noContentMsg course_name lesson_number
    else formatResults r

/-- The mutable state of the Search Tool: the sources of its most recent
execution. -/
structure CourseSearchTool where
  last_sources : List Source
deriving Repr, DecidableEq

/-- Modelled from the spec: `execute` delegates to the Retrieval Store
search, formats the outcome as text for the model, and overwrites (never
appends to) `last_sources` with one Source per result of this execution. -/
def CourseSearchTool.execute (_ts : CourseSearchTool) (vs : VectorStore)
    (e : Embedder) (query : String) (course_name : Option String := none)
    (lesson_number : Option Nat := none) : String × CourseSearchTool :=
  let r := vs.search e query course_name lesson_number none
  (toolOutput r course_name lesson_number, { last_sources := sourcesOf r })

/-! ## Tool Registry (spec section 4.4) -/

/-- The closed set of callable tool variants; the Search Tool is the only
source-producing tool. -/
inductive RegisteredTool where
  | courseSearch (state : CourseSearchTool)
deriving Repr, DecidableEq

/-- Modelled from the spec: the registry holds zero or more tools by name,
in registration order. -/
structure ToolManager where
  tools : List (String × RegisteredTool)
deriving Repr, DecidableEq

/-- The declared name of the search tool. -/
def searchToolName : String := "search_course_content"

/-- One recorded invocation of the Retrieval Store search: the query and
the two optional filters. -/
structure SearchInvocation where
  query : String
  course_name : Option String
  lesson_number : Option Nat
deriving Repr, DecidableEq

/-- Modelled from the spec: registry dispatch by name.  An unknown name
degrades to the informational string `Tool not-found` message instead of
failing; a known name runs the tool and updates its stored state.  Also
returns the list of store-search invocations the dispatch performed. -/
def ToolManager.execute_tool (mgr : ToolManager) (vs : VectorStore)
    (e : Embedder) (name query : String) (course_name : Option String)
    (lesson_number : Option Nat) :
    String × ToolManager × List SearchInvocation :=
  match mgr.tools.lookup name with
  | none => ("Tool " ++ squote ++ name ++ squote ++ " not found", mgr, [])
  | some (.courseSearch ts) =>
    let r := ts.execute vs e query course_name lesson_number
    (r.1,
     { tools := mgr.tools.map
         (fun p => if p.1 == name then (p.1, .courseSearch r.2) else p) },
     [⟨query, course_name, lesson_number⟩])

/-- Modelled from the spec: surface the most recent sources across the
registered tools (at most one source-producing tool is assumed active). -/
def ToolManager.get_last_sources (mgr : ToolManager) : List Source :=
  mgr.tools.foldr
    (fun p acc => match p.2 with | .courseSearch ts => ts.last_sources ++ acc)
    []

/-- The registry holding just the Search Tool, as built at startup. -/
def defaultManager : ToolManager :=
  { tools := [(searchToolName, .courseSearch ⟨[]⟩)] }

/-- A registry whose sole entry is the Search Tool under its declared name
(the shape every reachable registry state of the system has). -/
def isSearchManager (mgr : ToolManager) : Prop :=
  ∃ ts, mgr.tools = [(searchToolName, RegisteredTool.courseSearch ts)]

/-! ## Orchestrator (spec section 4.5)

The external language-model service is abstracted as a script: the ordered
list of responses it will return, one per call.  Running out of script
models an upstream service failure (propagated, not caught). -/

/-- One structured tool-invocation request inside a model response: name,
arguments and call id. -/
structure ToolCall where
  id : String
  name : String
  query : String
  course_name : Option String := none
  lesson_number : Option Nat := none
deriving Repr, DecidableEq

/-- The content of one chat turn: free text, a tool-use request, or a list
of tool results each tagged with its originating call id. -/
inductive Content where
  | text (s : String)
  | toolUse (calls : List ToolCall)
  | toolResults (rs : List (String × String))
deriving Repr, DecidableEq

/-- A chat role. -/
inductive Role where
  | user
  | assistant
deriving Repr, DecidableEq

/-- One entry of the message list sent to the language-model service. -/
structure ChatMessage where
  role : Role
  content : Content
deriving Repr, DecidableEq

/-- One response of the external language-model service: either one or
more structured tool-invocation requests, or final free text. -/
inductive ModelResponse where
  | toolUse (calls : List ToolCall)
  | endTurn (s : String)
deriving Repr, DecidableEq

/-- The observable arguments of one call to the language-model service:
the system prompt and the ordered message list. -/
structure ApiCall where
  system : String
  messages : List ChatMessage
deriving Repr, DecidableEq

/-- The observable trace of one orchestrator run: every call made to the
language-model service, and every Retrieval Store search performed. -/
structure Trace where
  apiCalls : List ApiCall
  searches : List SearchInvocation
deriving Repr, DecidableEq

/-- The error taxonomy of one orchestrator run: the round cap was hit, or
the upstream model service failed (here: the response script ran out). -/
inductive AgentError where
  | agentLoopExceeded
  | upstreamServiceFailed
deriving Repr, DecidableEq

/-- The outcome of one orchestrator run: the final answer or the error,
the trace, and the final registry state. -/
structure LoopOut where
  result : Except AgentError String
  trace : Trace
  manager : ToolManager
deriving Repr

/-- Modelled from the spec: execute every tool-use block of one model
response via the Tool Registry, collecting each result tagged by its call
id, the updated registry, and the search invocations performed. -/
def execToolCalls (vs : VectorStore) (e : Embedder) :
    List ToolCall → ToolManager →
    List (String × String) × ToolManager × List SearchInvocation
  | [], mgr => ([], mgr, [])
  | c :: cs, mgr =>
    let r := mgr.execute_tool vs e c.name c.query c.course_name c.lesson_number
    let rest := execToolCalls vs e cs r.2.1
    ((c.id, r.1) :: rest.1, rest.2.1, r.2.2 ++ rest.2.2)

/-- Modelled from the spec: the fixed system instruction of the
orchestrator, constant across queries (it tells the model when to search
the course materials). -/
def SYSTEM_PROMPT : String :=
  "You are an assistant for questions about course materials. "
    ++ "Use the search tool to retrieve relevant course content when needed."

/-- Modelled from the spec: the system instruction embeds prior
conversation history text when a session supplied one. -/
def systemText (history : Option String) : String :=
  match history with
  | none => SYSTEM_PROMPT
  | some h => SYSTEM_PROMPT ++ "\n\nPrevious conversation:\n" ++ h

/-- Modelled from the spec: the agent loop.  Each iteration consumes one
scripted model response (recording the call).  Free text terminates the
loop with that answer.  A tool-use response, while tool rounds remain,
executes every block via the registry, appends one assistant turn (the
tool-use request) and one user turn (all tool results, one entry per call
id), and loops back; with no rounds left the run fails with
`AgentLoopExceeded`.  An exhausted script models an upstream failure. -/
def runLoop (vs : VectorStore) (e : Embedder) (sys : String) :
    List ModelResponse → List ChatMessage → ToolManager → Trace → Nat → LoopOut
  | [], _, mgr, tr, _ =>
    { result := .error .upstreamServiceFailed, trace := tr, manager := mgr }
  | resp :: rest, msgs, mgr, tr, rounds =>
    let tr2 : Trace := { tr with apiCalls := tr.apiCalls ++ [⟨sys, msgs⟩] }
    match resp with
    | .endTurn s => { result := .ok s, trace := tr2, manager := mgr }
    | .toolUse calls =>
      match rounds with
      | 0 => { result := .error .agentLoopExceeded, trace := tr2, manager := mgr }
      | r + 1 =>
        let ex := execToolCalls vs e calls mgr
        let msgs2 := msgs ++
          [⟨.assistant, .toolUse calls⟩, ⟨.user, .toolResults ex.1⟩]
        runLoop vs e sys rest msgs2 ex.2.1
          { tr2 with searches := tr2.searches ++ ex.2.2 } r

/-- Modelled from the spec: `generate_response` builds the initial message
list (one user turn with the query, history folded into the system
instruction) and drives the bounded agent loop; the default cap is one
tool round followed by a mandatory final model call. -/
def generate_response (vs : VectorStore) (e : Embedder)
    (script : List ModelResponse) (query : String)
    (conversation_history : Option String := none)
    (mgr : ToolManager := defaultManager) (max_rounds : Nat := 1) : LoopOut :=
  runLoop vs e (systemText conversation_history) script
    [⟨.user, .text query⟩] mgr ⟨[], []⟩ max_rounds

/-! ## RAG system document ingestion (spec sections 4.1, 6, 7) -/

/-- Modelled from the spec: `add_course_document` processes one document
and adds it to the store; any failure raised while processing that single
document is caught and reported as `(none, 0)` rather than propagated
(the processing outcome is passed in explicitly, `rag_system.py` not being
in the available sources). -/
def add_course_document {ε : Type}
    (processing : Except ε (Course × List CourseChunk)) :
    Option Course × Nat :=
  match processing with
  | .ok (c, chunks) => (some c, chunks.length)
  | .error _ => (none, 0)

/-! ## Concrete test fixtures

A tiny deterministic embedding oracle and a populated store, mirroring the
fixtures of the test suite, used to instantiate the theorems below on
concrete inputs. -/

/-- A deterministic embedder: distance 0 between equal texts, 1 otherwise,
with matching threshold 0 (only exact texts resolve). -/
def unitEmbedder : Embedder :=
  { dist := fun a b => if a == b then 0 else 1, threshold := 0 }

/-- Does the second character sequence contain the first as a contiguous
run? -/
def containsSeq (needle : List Char) : List Char → Bool
  | [] => needle.isEmpty
  | c :: cs => needle.isPrefixOf (c :: cs) || containsSeq needle cs

/-- A deterministic embedder resolving abbreviations: distance 0 when the
query occurs inside the text (in particular when they are equal), 1
otherwise, threshold 0. -/
def fuzzyEmbedder : Embedder :=
  { dist := fun a b => if containsSeq a.toList b.toList then 0 else 1
    threshold := 0 }

/-- A sample course with two lessons. -/
def demoCourse : Course :=
  { title := "Building Towards Computer Use"
    course_link := some "https://example.com/course"
    instructor := some "Colt Steele"
    lessons :=
      [ { lesson_number := 0, title := "Introduction"
          lesson_link := some "https://example.com/lesson/0" },
        { lesson_number := 1, title := "Tool Use Basics"
          lesson_link := some "https://example.com/lesson/1" } ] }

/-- A chunk of lesson 0 of the sample course. -/
def demoChunk0 : CourseChunk :=
  { content := "Welcome to the course"
    course_title := "Building Towards Computer Use"
    lesson_number := 0
    chunk_index := 0
    lesson_link := some "https://example.com/lesson/0" }

/-- A chunk of lesson 1 of the sample course. -/
def demoChunk1 : CourseChunk :=
  { content := "Tool use lets the model act"
    course_title := "Building Towards Computer Use"
    lesson_number := 1
    chunk_index := 1
    lesson_link := some "https://example.com/lesson/1" }

/-- A populated store: one course, two content chunks, max results 5. -/
def demoStore : VectorStore :=
  { course_catalog := [demoCourse]
    course_content := [demoChunk0, demoChunk1]
    max_results := 5 }

/-! ## Helper lemmas -/

theorem mem_of_mem_take {α : Type} {a : α} {n : Nat} {l : List α}
    (h : a ∈ l.take n) : a ∈ l :=
  List.take_subset n l h

theorem query_content_error (vs : VectorStore) (e : Embedder) (q : String)
    (ct : Option String) (ln : Option Nat) (lim : Option Nat) :
    (vs.query_content e q ct ln lim).error = none := rfl

theorem query_content_lengths (vs : VectorStore) (e : Embedder) (q : String)
    (ct : Option String) (ln : Option Nat) (lim : Option Nat) :
    (vs.query_content e q ct ln lim).documents.length
        = (vs.query_content e q ct ln lim).metadata.length
      ∧ (vs.query_content e q ct ln lim).metadata.length
        = (vs.query_content e q ct ln lim).distances.length := by
  simp [VectorStore.query_content]

theorem mem_query_content_metadata {vs : VectorStore} {e : Embedder}
    {q : String} {ct : Option String} {ln : Option Nat} {lim : Option Nat}
    {m : ChunkMeta} (h : m ∈ (vs.query_content e q ct ln lim).metadata) :
    ∃ c, c ∈ vs.course_content ∧ matchesFilter ct ln c = true ∧ m = chunkMeta c := by
  simp only [VectorStore.query_content] at h
  rw [List.mem_map] at h
  obtain ⟨p, hp, hpm⟩ := h
  have hp2 := (List.mem_insertionSort
    (fun (a b : CourseChunk × ℚ) => a.2 ≤ b.2)).1 (mem_of_mem_take hp)
  rw [List.mem_map] at hp2
  obtain ⟨c, hc, hcp⟩ := hp2
  rw [List.mem_filter] at hc
  exact ⟨c, hc.1, hc.2, by rw [← hpm, ← hcp]⟩

theorem matchesFilter_lesson {ct : Option String} {n : Nat} {c : CourseChunk}
    (h : matchesFilter ct (some n) c = true) : c.lesson_number = n := by
  rw [matchesFilter.eq_def, Bool.and_eq_true] at h
  simpa using h.2

theorem matchesFilter_course {t : String} {ln : Option Nat} {c : CourseChunk}
    (h : matchesFilter (some t) ln c = true) : c.course_title = t := by
  rw [matchesFilter.eq_def, Bool.and_eq_true] at h
  simpa using h.1

theorem search_cases (vs : VectorStore) (e : Embedder) (q : String)
    (cn : Option String) (ln lim : Option Nat) :
    (∃ msg, vs.search e q cn ln lim = SearchResults.empty msg)
    ∨ (∃ ct, vs.search e q cn ln lim = vs.query_content e q ct ln lim) := by
  cases cn with
  | none => exact Or.inr ⟨none, rfl⟩
  | some name =>
    cases h : vs.resolve_course_name e name with
    | none =>
      refine Or.inl ⟨"No course found matching " ++ name, ?_⟩
      simp [VectorStore.search, h]
    | some t =>
      refine Or.inr ⟨some t, ?_⟩
      simp [VectorStore.search, h]

theorem execute_tool_on_search (ts : CourseSearchTool) (vs : VectorStore)
    (e : Embedder) (q : String) (cn : Option String) (ln : Option Nat) :
    ToolManager.execute_tool ⟨[(searchToolName, .courseSearch ts)]⟩ vs e
        searchToolName q cn ln
      = ((ts.execute vs e q cn ln).1,
         ⟨[(searchToolName, .courseSearch (ts.execute vs e q cn ln).2)]⟩,
         [⟨q, cn, ln⟩]) := by
  simp [ToolManager.execute_tool, List.lookup]

theorem execToolCalls_search (vs : VectorStore) (e : Embedder) :
    ∀ (calls : List ToolCall) (mgr : ToolManager),
    isSearchManager mgr → (∀ c ∈ calls, c.name = searchToolName) →
    (execToolCalls vs e calls mgr).1.map Prod.fst = calls.map ToolCall.id
    ∧ (execToolCalls vs e calls mgr).2.2
        = calls.map (fun c =>
            ({ query := c.query, course_name := c.course_name,
               lesson_number := c.lesson_number } : SearchInvocation))
    ∧ isSearchManager (execToolCalls vs e calls mgr).2.1 := by
  intro calls
  induction calls with
  | nil => exact fun mgr hm _ => ⟨rfl, rfl, hm⟩
  | cons c cs ih =>
    intro mgr hm hnames
    obtain ⟨ts, hts⟩ := hm
    obtain ⟨tls⟩ := mgr
    simp only at hts
    subst hts
    have hc : c.name = searchToolName := hnames c (List.mem_cons_self c cs)
    have ih2 := ih ⟨[(searchToolName,
        .courseSearch (ts.execute vs e c.query c.course_name c.lesson_number).2)]⟩
      ⟨_, rfl⟩ (fun x hx => hnames x (List.mem_cons_of_mem c hx))
    simp only [execToolCalls, hc, execute_tool_on_search]
    exact ⟨by simp [ih2.1], by simp [ih2.2.1], ih2.2.2⟩

theorem runLoop_calls_le (vs : VectorStore) (e : Embedder) (sys : String) :
    ∀ (script : List ModelResponse) (msgs : List ChatMessage)
      (mgr : ToolManager) (tr : Trace) (rounds : Nat),
    (runLoop vs e sys script msgs mgr tr rounds).trace.apiCalls.length
      ≤ tr.apiCalls.length + rounds + 1 := by
  intro script
  induction script with
  | nil =>
    intro msgs mgr tr rounds
    simp only [runLoop]
    omega
  | cons resp rest ih =>
    intro msgs mgr tr rounds
    cases resp with
    | endTurn s =>
      simp only [runLoop]
      simp
    | toolUse calls =>
      cases rounds with
      | zero =>
        simp only [runLoop]
        simp
      | succ r =>
        simp only [runLoop]
        refine le_trans (ih _ _ _ r) ?_
        simp
        omega

theorem runLoop_system (vs : VectorStore) (e : Embedder) (sys : String) :
    ∀ (script : List ModelResponse) (msgs : List ChatMessage)
      (mgr : ToolManager) (tr : Trace) (rounds : Nat) (a : ApiCall),
    a ∈ (runLoop vs e sys script msgs mgr tr rounds).trace.apiCalls →
    a ∈ tr.apiCalls ∨ a.system = sys := by
  intro script
  induction script with
  | nil =>
    intro msgs mgr tr rounds a ha
    exact Or.inl (by simpa [runLoop] using ha)
  | cons resp rest ih =>
    intro msgs mgr tr rounds a ha
    cases resp with
    | endTurn s =>
      simp [runLoop] at ha
      rcases ha with h | h
      · exact Or.inl h
      · exact Or.inr (by rw [h])
    | toolUse calls =>
      cases rounds with
      | zero =>
        simp [runLoop] at ha
        rcases ha with h | h
        · exact Or.inl h
        · exact Or.inr (by rw [h])
      | succ r =>
        simp only [runLoop] at ha
        rcases ih _ _ _ r a ha with h | h
        · simp at h
          rcases h with h | h
          · exact Or.inl h
          · exact Or.inr (by rw [h])
        · exact Or.inr h

theorem runLoop_first_call (vs : VectorStore) (e : Embedder) (sys : String) :
    ∀ (script : List ModelResponse) (msgs : List ChatMessage)
      (mgr : ToolManager) (tr : Trace) (rounds : Nat),
    ∃ l, (runLoop vs e sys script msgs mgr tr rounds).trace.apiCalls
        = tr.apiCalls ++ l
      ∧ (script ≠ [] → l.headD ⟨"", []⟩ = ⟨sys, msgs⟩) := by
  intro script
  induction script with
  | nil =>
    intro msgs mgr tr rounds
    exact ⟨[], by simp [runLoop], fun h => absurd rfl h⟩
  | cons resp rest ih =>
    intro msgs mgr tr rounds
    cases resp with
    | endTurn s => exact ⟨[⟨sys, msgs⟩], by simp [runLoop], fun _ => rfl⟩
    | toolUse calls =>
      cases rounds with
      | zero => exact ⟨[⟨sys, msgs⟩], by simp [runLoop], fun _ => rfl⟩
      | succ r =>
        obtain ⟨l, hl, _⟩ := ih
          (msgs ++ [⟨.assistant, .toolUse calls⟩,
            ⟨.user, .toolResults (execToolCalls vs e calls mgr).1⟩])
          (execToolCalls vs e calls mgr).2.1
          { apiCalls := tr.apiCalls ++ [⟨sys, msgs⟩]
            searches := tr.searches ++ (execToolCalls vs e calls mgr).2.2 } r
        refine ⟨⟨sys, msgs⟩ :: l, ?_, fun _ => rfl⟩
        simp only [runLoop]
        rw [hl]
        simp

/-! ## Claims -/

/-- C5: every `SearchResults` produced by the system — by `search`, by
`from_chroma` on a well-formed embedding-store row (the external store
returns parallel arrays), or by the `empty` constructor — has documents,
metadata and distances of equal length unless the error field is set, in
which case all three are empty; and `is_empty` returns true exactly when
`documents` is empty. -/
theorem C5_searchresults_invariant :
    (∀ (vs : VectorStore) (e : Embedder) (q : String) (cn : Option String)
        (ln lim : Option Nat),
      ((vs.search e q cn ln lim).error = none →
        (vs.search e q cn ln lim).documents.length
            = (vs.search e q cn ln lim).metadata.length
          ∧ (vs.search e q cn ln lim).metadata.length
            = (vs.search e q cn ln lim).distances.length)
      ∧ ((vs.search e q cn ln lim).error ≠ none →
          (vs.search e q cn ln lim).documents = []
            ∧ (vs.search e q cn ln lim).metadata = []
            ∧ (vs.search e q cn ln lim).distances = []))
    ∧ (∀ cr : ChromaResults,
        (cr.documents.headD []).length = (cr.metadatas.headD []).length →
        (cr.metadatas.headD []).length = (cr.distances.headD []).length →
          (SearchResults.from_chroma cr).error = none
          ∧ (SearchResults.from_chroma cr).documents.length
              = (SearchResults.from_chroma cr).metadata.length
          ∧ (SearchResults.from_chroma cr).metadata.length
              = (SearchResults.from_chroma cr).distances.length)
    ∧ (∀ msg : String,
        (SearchResults.empty msg).error = some msg
        ∧ (SearchResults.empty msg).documents = []
        ∧ (SearchResults.empty msg).metadata = []
        ∧ (SearchResults.empty msg).distances = [])
    ∧ (∀ r : SearchResults, r.is_empty = true ↔ r.documents = []) := by
  refine ⟨?_, ?_, ?_, ?_⟩
  · intro vs e q cn ln lim
    rcases search_cases vs e q cn ln lim with ⟨msg, hs⟩ | ⟨ct, hs⟩
    · rw [hs]
      exact ⟨fun h => by simp [SearchResults.empty] at h, fun _ => ⟨rfl, rfl, rfl⟩⟩
    · rw [hs]
      exact ⟨fun _ => query_content_lengths vs e q ct ln lim,
        fun h => absurd (query_content_error vs e q ct ln lim) h⟩
  · intro cr h1 h2
    exact ⟨rfl, h1, h2⟩
  · intro msg
    exact ⟨rfl, rfl, rfl, rfl⟩
  · intro r
    simp [SearchResults.is_empty, List.isEmpty_iff]

/-- C5 witness: the invariant instantiated on the populated demo store, a
concrete well-formed embedding-store row, and a concrete error result. -/
theorem C5_witness :
    ((demoStore.search unitEmbedder "q" none none none).documents.length
        = (demoStore.search unitEmbedder "q" none none none).metadata.length)
    ∧ (SearchResults.from_chroma
        ⟨[["doc1", "doc2"]],
         [[chunkMeta demoChunk0, chunkMeta demoChunk1]],
         [[(1 : ℚ) / 10, (2 : ℚ) / 10]]⟩).documents.length
      = (SearchResults.from_chroma
        ⟨[["doc1", "doc2"]],
         [[chunkMeta demoChunk0, chunkMeta demoChunk1]],
         [[(1 : ℚ) / 10, (2 : ℚ) / 10]]⟩).metadata.length
    ∧ (SearchResults.empty "Test error message").documents = [] := by
  refine ⟨?_, ?_, ?_⟩
  · exact ((C5_searchresults_invariant.1 demoStore unitEmbedder "q" none
      none none).1 rfl).1
  · exact (C5_searchresults_invariant.2.1
      ⟨[["doc1", "doc2"]],
       [[chunkMeta demoChunk0, chunkMeta demoChunk1]],
       [[(1 : ℚ) / 10, (2 : ℚ) / 10]]⟩ (by decide) (by decide)).2.1
  · exact (C5_searchresults_invariant.2.2.1 "Test error message").2.1

/-- C9: `add_course_document` reports any failure raised while processing a
single document as `(none, 0)` instead of propagating it; a successful
processing outcome yields the course and its chunk count. -/
theorem C9_add_course_document_catches (ε : Type) (err : ε) :
    add_course_document (Except.error err) = (none, 0)
    ∧ ∀ p : Except ε (Course × List CourseChunk),
        add_course_document p = (none, 0)
        ∨ ∃ c chunks, p = .ok (c, chunks)
            ∧ add_course_document p = (some c, chunks.length) := by
  refine ⟨rfl, ?_⟩
  intro p
  match p with
  | .error _ => exact Or.inl rfl
  | .ok (c, chunks) => exact Or.inr ⟨c, chunks, rfl, rfl⟩

/-- C6: after two sequential Search Tool executions, `last_sources` holds
exactly one Source per result of the second result set — label
`{courseTitle} - Lesson {lessonNumber}`, link that lesson link or absent —
and nothing from the first execution: the list is fully replaced, never
appended to. -/
theorem C6_sources_fully_replaced (ts : CourseSearchTool)
    (vs1 vs2 : VectorStore) (e : Embedder) (q1 q2 : String)
    (cn1 cn2 : Option String) (ln1 ln2 : Option Nat) :
    ((ts.execute vs1 e q1 cn1 ln1).2.execute vs2 e q2 cn2 ln2).2.last_sources
      = (vs2.search e q2 cn2 ln2 none).metadata.map
          (fun m => { text := m.course_title ++ " - Lesson "
                        ++ toString m.lesson_number
                      link := m.lesson_link }) := rfl

/-- C3: when the course name fails to resolve (no metadata, or the top-1
nearest match is outside the threshold), `search` returns exactly
`SearchResults` with error `No course found matching {name}` and empty
sequences, and the outcome is independent of the content collection (no
content search happens); an empty catalog never resolves; and whenever the
name does resolve — even abbreviated — the returned result has no error. -/
theorem C3_course_name_resolution (vs : VectorStore) (e : Embedder)
    (name q : String) (ln lim : Option Nat) :
    (vs.resolve_course_name e name = none →
      vs.search e q (some name) ln lim
          = SearchResults.empty ("No course found matching " ++ name)
      ∧ ∀ content2 : List CourseChunk,
          ({ vs with course_content := content2 } : VectorStore).search e q
              (some name) ln lim
            = SearchResults.empty ("No course found matching " ++ name))
    ∧ (vs.course_catalog = [] → vs.resolve_course_name e name = none)
    ∧ (∀ t, vs.resolve_course_name e name = some t →
        (vs.search e q (some name) ln lim).error = none) := by
  refine ⟨?_, ?_, ?_⟩
  · intro h
    have h2 : ∀ content2 : List CourseChunk,
        ({ vs with course_content := content2 } : VectorStore).resolve_course_name
          e name = none := fun _ => h
    exact ⟨by simp [VectorStore.search, h],
      fun content2 => by simp [VectorStore.search, h2 content2]⟩
  · intro h
    simp [VectorStore.resolve_course_name, h, bestMatch]
  · intro t h
    simp [VectorStore.search, h, query_content_error]

/-- C3 witness: on the populated demo store, a nonexistent course name
yields the error result untouched by the content collection, while the
exact title and the abbreviation `Computer Use` both resolve and search
without error. -/
theorem C3_witness :
    demoStore.search unitEmbedder "test" (some "Completely Nonexistent Course")
        none none
      = SearchResults.empty
          ("No course found matching " ++ "Completely Nonexistent Course")
    ∧ (demoStore.search unitEmbedder "intro"
        (some "Building Towards Computer Use") none none).error = none
    ∧ (demoStore.search fuzzyEmbedder "intro" (some "Computer Use")
        none none).error = none := by
  refine ⟨?_, ?_, ?_⟩
  · exact ((C3_course_name_resolution demoStore unitEmbedder
      "Completely Nonexistent Course" "test" none none).1 (by decide)).1
  · exact (C3_course_name_resolution demoStore unitEmbedder
      "Building Towards Computer Use" "intro" none none).2.2
      "Building Towards Computer Use" (by decide)
  · exact (C3_course_name_resolution demoStore fuzzyEmbedder
      "Computer Use" "intro" none none).2.2
      "Building Towards Computer Use" (by decide)

/-- C4: with a lesson filter every returned metadata entry has that lesson
number; with both filters every entry satisfies the resolved course title
AND the lesson number; and a lesson filter alone never produces an error —
an out-of-range lesson number yields an empty, errorless result. -/
theorem C4_lesson_filter_semantics (vs : VectorStore) (e : Embedder)
    (q : String) (cn : Option String) (n : Nat) (lim : Option Nat) :
    (∀ m ∈ (vs.search e q cn (some n) lim).metadata, m.lesson_number = n)
    ∧ (∀ name t, cn = some name → vs.resolve_course_name e name = some t →
        ∀ m ∈ (vs.search e q cn (some n) lim).metadata,
          m.course_title = t ∧ m.lesson_number = n)
    ∧ (vs.search e q none (some n) lim).error = none
    ∧ ((∀ c ∈ vs.course_content, c.lesson_number ≠ n) →
        vs.search e q none (some n) lim
          = { documents := [], metadata := [], distances := [], error := none }) := by
  refine ⟨?_, ?_, ?_, ?_⟩
  · intro m hm
    rcases search_cases vs e q cn (some n) lim with ⟨msg, hs⟩ | ⟨ct, hs⟩
    · rw [hs] at hm
      simp [SearchResults.empty] at hm
    · rw [hs] at hm
      obtain ⟨c, _, hf, hmc⟩ := mem_query_content_metadata hm
      rw [hmc]
      exact matchesFilter_lesson hf
  · intro name t hcn hres m hm
    subst hcn
    rw [show vs.search e q (some name) (some n) lim
        = vs.query_content e q (some t) (some n) lim by
      simp [VectorStore.search, hres]] at hm
    obtain ⟨c, _, hf, hmc⟩ := mem_query_content_metadata hm
    rw [hmc]
    exact ⟨matchesFilter_course hf, matchesFilter_lesson hf⟩
  · exact query_content_error vs e q none (some n) lim
  · intro h
    have hfil : vs.course_content.filter (matchesFilter none (some n)) = [] := by
      rw [List.filter_eq_nil_iff]
      intro c hc
      simp [matchesFilter]
      exact h c hc
    show vs.query_content e q none (some n) lim = _
    simp [VectorStore.query_content, hfil]

/-- C4 witness: on the demo store, the lesson-1 filter returns exactly the
lesson-1 chunk (with and without the course filter), and lesson 99 — out
of range — yields the empty errorless result. -/
theorem C4_witness :
    (chunkMeta demoChunk1).lesson_number = 1
    ∧ ((chunkMeta demoChunk1).course_title = "Building Towards Computer Use"
        ∧ (chunkMeta demoChunk1).lesson_number = 1)
    ∧ demoStore.search unitEmbedder "q" none (some 99) none
        = { documents := [], metadata := [], distances := [], error := none } := by
  refine ⟨?_, ?_, ?_⟩
  · exact (C4_lesson_filter_semantics demoStore unitEmbedder "q" none 1
      none).1 (chunkMeta demoChunk1) (by decide)
  · exact (C4_lesson_filter_semantics demoStore unitEmbedder "q"
      (some "Building Towards Computer Use") 1 none).2.1
      "Building Towards Computer Use" "Building Towards Computer Use" rfl
      (by decide) (chunkMeta demoChunk1) (by decide)
  · exact (C4_lesson_filter_semantics demoStore unitEmbedder "q" none 99
      none).2.2.2 (by decide)

/-- C8: dispatching an unregistered tool name returns the informational
string `Tool {name} not found` (quoted name) without changing the registry
and without failing, and an agent-loop round containing only that unknown
tool name still completes with the scripted final answer. -/
theorem C8_unknown_tool_degrades (mgr : ToolManager) (vs : VectorStore)
    (e : Embedder) (name q tid ans query : String) (cn : Option String)
    (ln : Option Nat) (h : mgr.tools.lookup name = none) :
    (mgr.execute_tool vs e name q cn ln).1
        = "Tool " ++ squote ++ name ++ squote ++ " not found"
    ∧ (mgr.execute_tool vs e name q cn ln).2.1 = mgr
    ∧ (generate_response vs e
        [.toolUse [⟨tid, name, q, cn, ln⟩], .endTurn ans]
        query none mgr 1).result = .ok ans := by
  refine ⟨?_, ?_, ?_⟩
  · simp [ToolManager.execute_tool, h]
  · simp [ToolManager.execute_tool, h]
  · simp [generate_response, runLoop, execToolCalls, ToolManager.execute_tool, h]

/-- C8 witness: the default registry does not know `nonexistent_tool`; the
theorem instantiated there. -/
theorem C8_witness :
    (defaultManager.execute_tool demoStore unitEmbedder "nonexistent_tool"
        "test" none none).1
      = "Tool " ++ squote ++ "nonexistent_tool" ++ squote ++ " not found"
    ∧ (generate_response demoStore unitEmbedder
        [.toolUse [⟨"t1", "nonexistent_tool", "test", none, none⟩],
         .endTurn "final answer"]
        "query" none defaultManager 1).result = .ok "final answer" := by
  have h := C8_unknown_tool_degrades defaultManager demoStore unitEmbedder
    "nonexistent_tool" "test" "t1" "final answer" "query" none none (by decide)
  exact ⟨h.1, h.2.2⟩

/-- C1: when the first model response requests k tool-use blocks (all naming
the search tool), the orchestrator executes every block — the store search
runs exactly k times, in block order — appends exactly one assistant turn
carrying the tool-use request and one user turn holding one tool result per
originating call id, and calls the model again with exactly that extended
message list. -/
theorem C1_tool_round_execution (vs : VectorStore) (e : Embedder)
    (calls : List ToolCall) (ans q : String)
    (h : ∀ c ∈ calls, c.name = searchToolName) :
    (generate_response vs e [.toolUse calls, .endTurn ans] q none
        defaultManager 1).result = .ok ans
    ∧ (generate_response vs e [.toolUse calls, .endTurn ans] q none
        defaultManager 1).trace.searches
        = calls.map (fun c =>
            ({ query := c.query, course_name := c.course_name,
               lesson_number := c.lesson_number } : SearchInvocation))
    ∧ (generate_response vs e [.toolUse calls, .endTurn ans] q none
        defaultManager 1).trace.searches.length = calls.length
    ∧ ∃ results : List (String × String),
        results.map Prod.fst = calls.map ToolCall.id
        ∧ (generate_response vs e [.toolUse calls, .endTurn ans] q none
            defaultManager 1).trace.apiCalls
          = [⟨SYSTEM_PROMPT, [⟨.user, .text q⟩]⟩,
             ⟨SYSTEM_PROMPT,
              [⟨.user, .text q⟩, ⟨.assistant, .toolUse calls⟩,
               ⟨.user, .toolResults results⟩]⟩] := by
  have hm : isSearchManager defaultManager := ⟨⟨[]⟩, rfl⟩
  have hs := execToolCalls_search vs e calls defaultManager hm h
  refine ⟨?_, ?_, ?_, ⟨(execToolCalls vs e calls defaultManager).1, hs.1, ?_⟩⟩
  · simp [generate_response, runLoop]
  · simp [generate_response, runLoop, hs.2.1]
  · simp [generate_response, runLoop, hs.2.1]
  · simp [generate_response, runLoop, systemText]

/-- C1 witness: a response carrying two search tool-use blocks leads to the
scripted final answer with the search executed exactly twice. -/
theorem C1_witness :
    (generate_response demoStore unitEmbedder
        [.toolUse [⟨"tool_1", searchToolName, "first query", none, none⟩,
                   ⟨"tool_2", searchToolName, "second query", none, none⟩],
         .endTurn "Combined answer"]
        "Complex query" none defaultManager 1).result = .ok "Combined answer"
    ∧ (generate_response demoStore unitEmbedder
        [.toolUse [⟨"tool_1", searchToolName, "first query", none, none⟩,
                   ⟨"tool_2", searchToolName, "second query", none, none⟩],
         .endTurn "Combined answer"]
        "Complex query" none defaultManager 1).trace.searches.length = 2 := by
  have h := C1_tool_round_execution demoStore unitEmbedder
    [⟨"tool_1", searchToolName, "first query", none, none⟩,
     ⟨"tool_2", searchToolName, "second query", none, none⟩]
    "Combined answer" "Complex query" (by decide)
  exact ⟨h.1, h.2.2.1⟩

/-- C2: the agent loop always terminates within its hard cap — for every
response script the number of language-model calls is at most the round cap
plus one — and when the model requests tools on every call the mandatory
follow-up call is still made (two calls under the default cap of one tool
round) and the run fails with `AgentLoopExceeded`. -/
theorem C2_round_cap (vs : VectorStore) (e : Embedder)
    (script : List ModelResponse) (q : String) (hist : Option String)
    (mgr : ToolManager) (r : Nat) :
    (generate_response vs e script q hist mgr r).trace.apiCalls.length ≤ r + 1
    ∧ (∀ c1 c2 rest2, script = .toolUse c1 :: .toolUse c2 :: rest2 →
        (generate_response vs e script q hist mgr 1).result
            = .error .agentLoopExceeded
        ∧ (generate_response vs e script q hist mgr 1).trace.apiCalls.length
            = 2) := by
  constructor
  · have hb := runLoop_calls_le vs e (systemText hist) script
      [⟨.user, .text q⟩] mgr ⟨[], []⟩ r
    simpa [generate_response] using hb
  · intro c1 c2 rest2 hscript
    subst hscript
    constructor
    · simp [generate_response, runLoop]
    · simp [generate_response, runLoop]

/-- C2 witness: a script that requests tools on both calls hits the cap —
exactly two model calls, ending in `AgentLoopExceeded`. -/
theorem C2_witness :
    (generate_response demoStore unitEmbedder
        [.toolUse [⟨"t1", searchToolName, "q", none, none⟩],
         .toolUse [⟨"t2", searchToolName, "q", none, none⟩]]
        "query" none defaultManager 1).result = .error .agentLoopExceeded
    ∧ (generate_response demoStore unitEmbedder
        [.toolUse [⟨"t1", searchToolName, "q", none, none⟩],
         .toolUse [⟨"t2", searchToolName, "q", none, none⟩]]
        "query" none defaultManager 1).trace.apiCalls.length = 2
    ∧ (generate_response demoStore unitEmbedder
        [.toolUse [⟨"t1", searchToolName, "q", none, none⟩],
         .toolUse [⟨"t2", searchToolName, "q", none, none⟩]]
        "query" none defaultManager 1).trace.apiCalls.length ≤ 1 + 1 := by
  have h := C2_round_cap demoStore unitEmbedder
    [.toolUse [⟨"t1", searchToolName, "q", none, none⟩],
     .toolUse [⟨"t2", searchToolName, "q", none, none⟩]]
    "query" none defaultManager 1
  have h2 := h.2 _ _ _ rfl
  exact ⟨h2.1, h2.2, h.1⟩

/-- C10: with no conversation history the system argument of every
language-model call is the fixed `SYSTEM_PROMPT`, identical across any two
runs with any two queries; the query text reaches only the single user
message of the first call. -/
theorem C10_system_prompt_constant (vs1 vs2 : VectorStore) (e1 e2 : Embedder)
    (q1 q2 : String) (script1 script2 : List ModelResponse)
    (mgr1 mgr2 : ToolManager) (r1 r2 : Nat) :
    (∀ a ∈ (generate_response vs1 e1 script1 q1 none mgr1 r1).trace.apiCalls,
     ∀ b ∈ (generate_response vs2 e2 script2 q2 none mgr2 r2).trace.apiCalls,
        a.system = b.system ∧ a.system = SYSTEM_PROMPT)
    ∧ (script1 ≠ [] →
        ((generate_response vs1 e1 script1 q1 none mgr1 r1).trace.apiCalls.headD
            ⟨"", []⟩).messages = [⟨.user, .text q1⟩]) := by
  constructor
  · intro a ha b hb
    simp only [generate_response] at ha hb
    have h1 := runLoop_system vs1 e1 (systemText none) script1
      [⟨.user, .text q1⟩] mgr1 ⟨[], []⟩ r1 a ha
    have h2 := runLoop_system vs2 e2 (systemText none) script2
      [⟨.user, .text q2⟩] mgr2 ⟨[], []⟩ r2 b hb
    rcases h1 with h1 | h1
    · simp at h1
    rcases h2 with h2 | h2
    · simp at h2
    exact ⟨h1.trans h2.symm, h1⟩
  · intro hne
    obtain ⟨l, hl, hh⟩ := runLoop_first_call vs1 e1 (systemText none) script1
      [⟨.user, .text q1⟩] mgr1 ⟨[], []⟩ r1
    simp only [generate_response]
    rw [hl]
    simp only [List.nil_append]
    rw [hh hne]

/-- C10 witness: two runs with different queries and no history receive the
same system prompt, and the first call carries only the user query. -/
theorem C10_witness :
    ((⟨SYSTEM_PROMPT, [⟨.user, .text "First query"⟩]⟩ : ApiCall).system
        = (⟨SYSTEM_PROMPT, [⟨.user, .text "Second query"⟩]⟩ : ApiCall).system
      ∧ (⟨SYSTEM_PROMPT, [⟨.user, .text "First query"⟩]⟩ : ApiCall).system
        = SYSTEM_PROMPT)
    ∧ ((generate_response demoStore unitEmbedder [.endTurn "resp"]
          "First query" none defaultManager 1).trace.apiCalls.headD
          ⟨"", []⟩).messages = [⟨.user, .text "First query"⟩] := by
  have h := C10_system_prompt_constant demoStore demoStore unitEmbedder
    unitEmbedder "First query" "Second query" [.endTurn "resp"]
    [.endTurn "resp"] defaultManager defaultManager 1 1
  exact ⟨h.1 _ (by decide) _ (by decide), h.2 (by decide)⟩

/-- C7 counterexample: a round with two search tool calls whose result sets
have sizes 2 and 1 — both execute and the search runs exactly twice, but
the registry's final source list has length 1 (the second result set),
not 2 + 1: each execution fully replaces the source list, so the lengths
never sum. -/
theorem C7_counterexample :
    (generate_response demoStore unitEmbedder
        [.toolUse [⟨"t1", searchToolName, "q", none, none⟩,
                   ⟨"t2", searchToolName, "q", none, some 1⟩],
         .endTurn "ans"] "query" none defaultManager 1).trace.searches.length
      = 2
    ∧ (demoStore.search unitEmbedder "q" none none none).documents.length = 2
    ∧ (demoStore.search unitEmbedder "q" none (some 1) none).documents.length
      = 1
    ∧ ¬ (generate_response demoStore unitEmbedder
          [.toolUse [⟨"t1", searchToolName, "q", none, none⟩,
                     ⟨"t2", searchToolName, "q", none, some 1⟩],
           .endTurn "ans"] "query" none
          defaultManager 1).manager.get_last_sources.length = 2 + 1
    ∧ (generate_response demoStore unitEmbedder
        [.toolUse [⟨"t1", searchToolName, "q", none, none⟩,
                   ⟨"t2", searchToolName, "q", none, some 1⟩],
         .endTurn "ans"] "query" none
        defaultManager 1).manager.get_last_sources.length = 1 := by
  refine ⟨by decide, by decide, by decide, by decide, by decide⟩

/-- C7 amended: when the model requests two search tool calls in one round,
both execute, the search is invoked exactly twice in call order, and the
registry's final source list equals the sources of the second call's result
set (its length is the second result set's size, not the sum: each
execution fully replaces the list). -/
theorem C7_two_calls_final_sources (vs : VectorStore) (e : Embedder)
    (c1 c2 : ToolCall) (ans q : String)
    (h1 : c1.name = searchToolName) (h2 : c2.name = searchToolName) :
    (generate_response vs e [.toolUse [c1, c2], .endTurn ans] q none
        defaultManager 1).trace.searches
      = [⟨c1.query, c1.course_name, c1.lesson_number⟩,
         ⟨c2.query, c2.course_name, c2.lesson_number⟩]
    ∧ (generate_response vs e [.toolUse [c1, c2], .endTurn ans] q none
        defaultManager 1).manager.get_last_sources
      = sourcesOf (vs.search e c2.query c2.course_name c2.lesson_number none)
    ∧ (generate_response vs e [.toolUse [c1, c2], .endTurn ans] q none
        defaultManager 1).manager.get_last_sources.length
      = (vs.search e c2.query c2.course_name c2.lesson_number none).metadata.length := by
  refine ⟨?_, ?_, ?_⟩
  · simp [generate_response, runLoop, execToolCalls, h1, h2, defaultManager,
      execute_tool_on_search]
  · simp [generate_response, runLoop, execToolCalls, h1, h2, defaultManager,
      execute_tool_on_search, ToolManager.get_last_sources,
      CourseSearchTool.execute]
  · simp [generate_response, runLoop, execToolCalls, h1, h2, defaultManager,
      execute_tool_on_search, ToolManager.get_last_sources,
      CourseSearchTool.execute, sourcesOf]

/-- C7 amended witness: the counterexample configuration satisfies the
amended statement — final sources are exactly the second result set's. -/
theorem C7_amended_witness :
    (generate_response demoStore unitEmbedder
        [.toolUse [⟨"t1", searchToolName, "q", none, none⟩,
                   ⟨"t2", searchToolName, "q", none, some 1⟩],
         .endTurn "ans"] "query" none defaultManager 1).manager.get_last_sources
      = sourcesOf (demoStore.search unitEmbedder "q" none (some 1) none) := by
  exact (C7_two_calls_final_sources demoStore unitEmbedder
    ⟨"t1", searchToolName, "q", none, none⟩
    ⟨"t2", searchToolName, "q", none, some 1⟩
    "ans" "query" rfl rfl).2.1

end RagSpec
